import Mathlib

/-!
Shallow embedding of the streamyfin playback code:
  * `src/utils/jellyfin/media/getStreamUrl.ts` — stream-URL resolution,
  * `src/providers/PlaybackProvider.tsx` — playback session controller,
  * `FullScreenVideoPlayer` (player UI) — scrub / progress handling.
JavaScript numbers are modelled as rationals, nullable values as `Option`,
and JavaScript string truthiness (`""`, `null`, `undefined` are falsy)
explicitly.
-/

namespace Streamyfin

/-- JavaScript truthiness of a nullable string: `null`/`undefined` and the
empty string are falsy. -/
def jsStr (s : Option String) : Bool :=
  match s with
  | some s => s ≠ ""
  | none => false

/-- Template-literal interpolation of a possibly-undefined number:
JavaScript renders `undefined` as the text "undefined". -/
def jsInterpOptInt (n : Option Int) : String :=
  match n with
  | some n => toString n
  | none => "undefined"

/-- The fields of the jellyfin `Api` object used by `getStreamUrl`:
`basePath`, `accessToken` and `deviceInfo.id`. -/
structure Api where
  basePath : String
  accessToken : String
  deviceId : String
deriving DecidableEq, Repr

/-- The fields of `BaseItemDto` used by the playback code. -/
structure BaseItemDto where
  Id : Option String
  MediaType : Option String
deriving DecidableEq, Repr

/-- The fields of `MediaSourceInfo` used by `getStreamUrl`. -/
structure MediaSourceInfo where
  Id : String
  SupportsDirectPlay : Bool
  TranscodingUrl : Option String
deriving DecidableEq, Repr

/-- The fields of `PlaybackInfoResponse` used as `sessionData`. -/
structure PlaybackInfoResponse where
  PlaySessionId : Option String
deriving DecidableEq, Repr

/-- The body of the server response to `/Items/{id}/PlaybackInfo` used by
`getStreamUrl` (`response.data`). -/
structure PlaybackInfoData where
  MediaSources : List MediaSourceInfo
deriving DecidableEq, Repr

/-- The arguments of `getStreamUrl` that influence its result. -/
structure GetStreamArgs where
  api : Option Api
  item : Option BaseItemDto
  userId : Option String
  audioStreamIndex : Int := 0
  subtitleStreamIndex : Option Int := none
  forceDirectPlay : Bool := false
  mediaSourceId : Option String
  sessionData : PlaybackInfoResponse
deriving DecidableEq, Repr

/-- Hexadecimal digit (uppercase), for percent-encoding. -/
def hexDigit (n : Nat) : Char :=
  if n < 10 then Char.ofNat (48 + n) else Char.ofNat (55 + n)

/-- Percent-encoding of one byte as `%HH`. -/
def percentByte (b : Nat) : String :=
  String.mk ['%', hexDigit (b / 16 % 16), hexDigit (b % 16)]

/-- The `application/x-www-form-urlencoded` encoding of one character, as
performed by `URLSearchParams.toString()`: ASCII alphanumerics and
`*`, `-`, `.`, `_` are kept, space becomes `+`, everything else is
percent-encoded byte-wise (UTF-8). -/
def formEncodeChar (c : Char) : String :=
  if c.isAlphanum ∨ c = '*' ∨ c = '-' ∨ c = '.' ∨ c = '_' then
    String.singleton c
  else if c = ' ' then "+"
  else
    String.join (((String.singleton c).toUTF8.toList).map (fun b => percentByte b.toNat))

/-- The `application/x-www-form-urlencoded` encoding of a string. -/
def formEncode (s : String) : String :=
  String.join (s.toList.map formEncodeChar)

/-- Embeds `URLSearchParams(pairs).toString()`: `k=v` pairs joined with `&`,
keys and values form-encoded. -/
def urlSearchParams (pairs : List (String × String)) : String :=
  String.intercalate "&" (pairs.map (fun p => formEncode p.1 ++ "=" ++ formEncode p.2))

/-- The direct static-stream URL template built for `MediaType === "Video"`
in `getStreamUrl` (the template literal on its direct-play branch). -/
def videoStreamUrl (basePath itemId playSessionId mediaSourceIdVal : String)
    (subtitleStreamIndex : Option Int) (audioStreamIndex : Int)
    (deviceId accessToken : String) : String :=
  basePath ++ "/Videos/" ++ itemId ++ "/stream.mp4?" ++
    "playSessionId=" ++ playSessionId ++ "&" ++
    "mediaSourceId=" ++ mediaSourceIdVal ++ "&" ++
    "static=true" ++ "&" ++
    "subtitleStreamIndex=" ++ jsInterpOptInt subtitleStreamIndex ++ "&" ++
    "audioStreamIndex=" ++ toString audioStreamIndex ++ "&" ++
    "deviceId=" ++ deviceId ++ "&" ++
    "api_key=" ++ accessToken

/-- The format-negotiated universal audio URL built for
`MediaType === "Audio"` in `getStreamUrl`. -/
def audioUniversalUrl (basePath itemId userId deviceId accessToken playSessionId : String) :
    String :=
  basePath ++ "/Audio/" ++ itemId ++ "/universal?" ++
    urlSearchParams
      [("UserId", userId),
       ("DeviceId", deviceId),
       ("MaxStreamingBitrate", "140000000"),
       ("Container", "opus,webm|opus,mp3,aac,m4a|aac,m4b|aac,flac,webma,webm|webma,wav,ogg"),
       ("TranscodingContainer", "mp4"),
       ("TranscodingProtocol", "hls"),
       ("AudioCodec", "aac"),
       ("api_key", accessToken),
       ("PlaySessionId", playSessionId),
       ("StartTimeTicks", "0"),
       ("EnableRedirection", "true"),
       ("EnableRemoteMedia", "false")]

/-- The ways `getStreamUrl` fails: the three thrown errors
`"No media source"`, `"no PlaySessionId"` and `"No url"`. -/
inductive StreamError where
  | noMediaSource
  | noSession
  | noUrl
deriving DecidableEq, Repr

/-- The outcome of a `getStreamUrl` call: the early `null` return, a thrown
error, or a resolved URL. -/
inductive StreamResult where
  | nullResult
  | err (e : StreamError)
  | url (u : String)
deriving DecidableEq, Repr

/-- Embeds `response.data.MediaSources.find(source => source.Id === mediaSourceId)`. -/
def findMediaSource (sources : List MediaSourceInfo) (mediaSourceId : String) :
    Option MediaSourceInfo :=
  sources.find? (fun source => source.Id == mediaSourceId)

/-- The `url` computed by `getStreamUrl` after the source and session checks:
the direct-play branch (taken when `SupportsDirectPlay` or
`forceDirectPlay === true`) builds the video or audio URL by media type,
otherwise a truthy `TranscodingUrl` is appended to the API base path;
`none` when no branch assigns a URL. -/
def buildUrl (api : Api) (item : BaseItemDto) (itemId userId : String)
    (subtitleStreamIndex : Option Int) (audioStreamIndex : Int)
    (forceDirectPlay : Bool) (playSessionId : String)
    (mediaSource : MediaSourceInfo) : Option String :=
  if mediaSource.SupportsDirectPlay ∨ forceDirectPlay = true then
    if item.MediaType = some "Video" then
      some (videoStreamUrl api.basePath itemId playSessionId mediaSource.Id
        subtitleStreamIndex audioStreamIndex api.deviceId api.accessToken)
    else if item.MediaType = some "Audio" then
      some (audioUniversalUrl api.basePath itemId userId api.deviceId
        api.accessToken playSessionId)
    else
      none
  else
    match mediaSource.TranscodingUrl with
    | some t => if t ≠ "" then some (api.basePath ++ t) else none
    | none => none

/-- The function `getStreamUrl` from `src/utils/jellyfin/media/getStreamUrl.ts`.
The first component records whether the `PlaybackInfo` POST request was
issued (the guard on `api`, `userId`, `item?.Id` and `mediaSourceId`
returns `null` before any network call); `resp` is the server response
to that request. -/
def getStreamUrl (a : GetStreamArgs) (resp : PlaybackInfoData) : Bool × StreamResult :=
  if ¬ (a.api.isSome ∧ jsStr a.userId ∧ jsStr (a.item.bind (·.Id)) ∧ jsStr a.mediaSourceId) then
    (false, .nullResult)
  else
    match a.api, a.item, a.userId, a.mediaSourceId with
    | some api, some item, some userId, some mediaSourceId =>
      match item.Id with
      | some itemId =>
        match findMediaSource resp.MediaSources mediaSourceId with
        | none => (true, .err .noMediaSource)
        | some mediaSource =>
          if ¬ jsStr a.sessionData.PlaySessionId then
            (true, .err .noSession)
          else
            match a.sessionData.PlaySessionId with
            | some playSessionId =>
              match buildUrl api item itemId userId a.subtitleStreamIndex
                  a.audioStreamIndex a.forceDirectPlay playSessionId mediaSource with
              | none => (true, .err .noUrl)
              | some u => if u = "" then (true, .err .noUrl) else (true, .url u)
            | none => (true, .err .noSession)
      | none => (false, .nullResult)
    | _, _, _, _ => (false, .nullResult)

/-! ## Playback session controller (`src/providers/PlaybackProvider.tsx`)

The provider is a React component; we embed it as a state machine: each
callback maps the state it reads at invocation time to an updated state
plus a list of observable effects (outbound reports, video-element calls,
navigation, alerts). -/

/-- Structure `CurrentlyPlayingState` from `PlaybackProvider.tsx`. -/
structure CurrentlyPlayingState where
  url : String
  item : BaseItemDto
deriving DecidableEq, Repr

/-- The provider state: the `useState`/`useRef` cells that the playback
callbacks read and write. `progressTicks` starts at `some 0`, `volume`
and `previousVolume` at `none` (null). -/
structure ProviderState where
  isPlaying : Bool
  isBuffering : Bool
  isFullscreen : Bool
  progressTicks : Option ℚ
  volume : Option ℚ
  previousVolume : Option ℚ
  session : Option PlaybackInfoResponse
  currentlyPlaying : Option CurrentlyPlayingState
deriving DecidableEq, Repr

/-- A progress report pushed to the server
(`reportPlaybackProgress` argument record). -/
structure ProgressReport where
  itemId : Option String
  positionTicks : ℚ
  sessionId : Option String
  IsPaused : Bool
deriving DecidableEq, Repr

/-- A stop report pushed to the server
(`reportPlaybackStopped` argument record). -/
structure StopReport where
  itemId : Option String
  sessionId : Option String
  positionTicks : ℚ
deriving DecidableEq, Repr

/-- Observable effects of the playback callbacks. -/
inductive PlayerEffect where
  | progressReport (r : ProgressReport)
  | stopReport (r : StopReport)
  | videoResume
  | videoPause
  | setVideoVolume (v : ℚ)
  | seek (seconds : ℚ)
  | alert (title body : Option String)
  | navigateBack
deriving DecidableEq, Repr

/-- Modelled from the spec: `reportPlaybackProgress`
(`src/utils/jellyfin/playstate/reportPlaybackProgress`, not under `src/`)
pushes the current position and pause state to the server; per the spec it
"silently no-ops while no session id exists", and it cannot report without
an item, so it sends nothing unless both `itemId` and `sessionId` are
present (JS-truthy). -/
def reportPlaybackProgress (itemId : Option String) (positionTicks : ℚ)
    (sessionId : Option String) (IsPaused : Bool) : List PlayerEffect :=
  if jsStr itemId ∧ jsStr sessionId then
    [.progressReport ⟨itemId, positionTicks, sessionId, IsPaused⟩]
  else
    []

/-- Modelled from the spec: `reportPlaybackStopped`
(`src/utils/jellyfin/playstate/reportPlaybackStopped`, not under `src/`)
sends a final stop/position report; per the spec "stopping with no active
session is a no-op", so it sends nothing unless both `itemId` and
`sessionId` are present (JS-truthy). -/
def reportPlaybackStopped (itemId : Option String) (sessionId : Option String)
    (positionTicks : ℚ) : List PlayerEffect :=
  if jsStr itemId ∧ jsStr sessionId then
    [.stopReport ⟨itemId, sessionId, positionTicks⟩]
  else
    []

/-- Embeds `currentlyPlaying?.item.Id`. -/
def currentItemId (s : ProviderState) : Option String :=
  s.currentlyPlaying.bind (fun cp => cp.item.Id)

/-- Embeds `session?.PlaySessionId`. -/
def sessionPlayId (s : ProviderState) : Option String :=
  s.session.bind (fun ss => ss.PlaySessionId)

/-- Embeds `progressTicks ? progressTicks : 0` (JS: `null` and `0` are falsy). -/
def ticksOrZero (t : Option ℚ) : ℚ := t.getD 0

/-- Embeds `setCurrentlyPlayingState(null)`: the else-branch clears
`currentlyPlaying`, `isFullscreen` and `isPlaying`; the session is not
cleared. -/
def setCurrentlyPlayingStateNull (s : ProviderState) : ProviderState :=
  { s with currentlyPlaying := none, isFullscreen := false, isPlaying := false }

/-- The callback `setVolume`: saves the volume read at call time into `previousVolume`,
then sets the new volume on the state and the video element. -/
def setVolume (s : ProviderState) (newVolume : ℚ) : ProviderState × List PlayerEffect :=
  ({ s with previousVolume := s.volume, volume := some newVolume },
   [.setVideoVolume newVolume])

/-- The callback `playVideo()` (with the default `triggerRef = true`): resumes the video
element, sets `isPlaying`, and reports progress with `IsPaused: false`. -/
def playVideo (s : ProviderState) : ProviderState × List PlayerEffect :=
  ({ s with isPlaying := true },
   .videoResume ::
     reportPlaybackProgress (currentItemId s) (ticksOrZero s.progressTicks)
       (sessionPlayId s) false)

/-- The callback `pauseVideo()` (with the default `triggerRef = true`): pauses the video
element, clears `isPlaying`, and reports progress with `IsPaused: true`. -/
def pauseVideo (s : ProviderState) : ProviderState × List PlayerEffect :=
  ({ s with isPlaying := false },
   .videoPause ::
     reportPlaybackProgress (currentItemId s) (ticksOrZero s.progressTicks)
       (sessionPlayId s) true)

/-- The callback `stopPlayback`: captures the current item id, clears the playing state
via `setCurrentlyPlayingState(null)`, then calls `reportPlaybackStopped`
with that id, the session id and the current ticks. -/
def stopPlayback (s : ProviderState) : ProviderState × List PlayerEffect :=
  let id := currentItemId s
  (setCurrentlyPlayingStateNull s,
   reportPlaybackStopped id (sessionPlayId s) (ticksOrZero s.progressTicks))

/-- The callback `_onProgress({currentTime})`: returns without any update or report when
there is no session id, no current item id, or `currentTime === 0`;
otherwise stores `currentTime * 10000000` in `progressTicks` and reports
it with the pause state. -/
def _onProgress (s : ProviderState) (currentTime : ℚ) : ProviderState × List PlayerEffect :=
  if ¬ jsStr (sessionPlayId s) ∨ ¬ jsStr (currentItemId s) ∨ currentTime = 0 then
    (s, [])
  else
    let ticks := currentTime * 10000000
    ({ s with progressTicks := some ticks },
     reportPlaybackProgress (currentItemId s) ticks (sessionPlayId s) (!s.isPlaying))

/-- A WebSocket message as read by the `ws.onmessage` handler:
`json?.Data?.Command`, `json?.Data?.Name`, and the `DisplayMessage`
arguments `Header` and `Text`. -/
structure WsMessage where
  Command : Option String
  Name : Option String
  Header : Option String
  Text : Option String
deriving DecidableEq, Repr

/-- Embeds `previousVolume.current || 20`: JS `||` falls through to 20 when the
saved volume is `null` or `0`. -/
def unmuteVolume (previousVolume : Option ℚ) : ℚ :=
  match previousVolume with
  | some v => if v = 0 then 20 else v
  | none => 20

/-- The `ws.onmessage` handler: dispatch on `Data.Command` by exact string
match (`PlayPause`, `Stop`, `Mute`, `Unmute`, `SetVolume`), then on
`Data.Name === "DisplayMessage"`; anything else does nothing.
`canGoBack` models `router.canGoBack()`. -/
def onMessage (s : ProviderState) (canGoBack : Bool) (m : WsMessage) :
    ProviderState × List PlayerEffect :=
  if m.Command = some "PlayPause" then
    if s.isPlaying then pauseVideo s else playVideo s
  else if m.Command = some "Stop" then
    let r := stopPlayback s
    (r.1, r.2 ++ if canGoBack then [.navigateBack] else [])
  else if m.Command = some "Mute" then
    setVolume s 0
  else if m.Command = some "Unmute" then
    setVolume s (unmuteVolume s.previousVolume)
  else if m.Command = some "SetVolume" then
    (s, [])
  else if m.Name = some "DisplayMessage" then
    (s, [.alert m.Header m.Text])
  else
    (s, [])

/-- Number of stop reports in an effect list. -/
def countStopReports (l : List PlayerEffect) : Nat :=
  l.countP (fun e => match e with | .stopReport _ => true | _ => false)

/-- Number of progress reports in an effect list. -/
def countProgressReports (l : List PlayerEffect) : Nat :=
  l.countP (fun e => match e with | .progressReport _ => true | _ => false)

/-- Number of seeks in an effect list. -/
def countSeeks (l : List PlayerEffect) : Nat :=
  l.countP (fun e => match e with | .seek _ => true | _ => false)

/-! ## Player UI (`FullScreenVideoPlayer`) -/

/-- Modelled from the spec: `secondsToTicks` (`@/utils/secondsToTicks`, not
under `src/`) converts seconds to the media-server time unit of
10,000,000 ticks per second. -/
def secondsToTicks (seconds : ℚ) : ℚ := seconds * 10000000

/-- The video element progress event payload (`OnProgressData`). -/
structure OnProgressData where
  currentTime : ℚ
  playableDuration : ℚ
deriving DecidableEq, Repr

/-- Local player-UI state used by the scrub/progress handlers: the
`isSeeking`, `progress` and `cacheProgress` shared values and the two
buffering flags (local `setIsBufferingState` and the context
`setIsBuffering`). -/
structure PlayerUIState where
  isSeeking : Bool
  progress : ℚ
  cacheProgress : ℚ
  isBufferingLocal : Bool
  isBufferingCtx : Bool
deriving DecidableEq, Repr

/-- The handler `handleVideoProgress`: returns immediately while `isSeeking.value` is
true; otherwise updates the slider progress, cache progress and buffering
flags and forwards the event to the provider `onProgress`
(the debounced `_onProgress`). -/
def handleVideoProgress (ui : PlayerUIState) (ps : ProviderState) (d : OnProgressData) :
    PlayerUIState × ProviderState × List PlayerEffect :=
  if ui.isSeeking = true then
    (ui, ps, [])
  else
    let ui' : PlayerUIState :=
      { ui with
        progress := secondsToTicks d.currentTime
        cacheProgress := secondsToTicks d.playableDuration
        isBufferingLocal := d.playableDuration = 0
        isBufferingCtx := d.playableDuration = 0 }
    let r := _onProgress ps d.currentTime
    (ui', r.1, r.2)

/-- The handler `handleSliderComplete(value)`: stores the slider value as progress,
leaves seeking mode, and seeks the video element to `value / 10000000`
seconds. -/
def handleSliderComplete (ui : PlayerUIState) (value : ℚ) :
    PlayerUIState × List PlayerEffect :=
  ({ ui with progress := value, isSeeking := false },
   [.seek (value / 10000000)])

/-- The handler `handleSliderStart()` when controls are shown: enters seeking mode. -/
def handleSliderStart (ui : PlayerUIState) (showControls : Bool) : PlayerUIState :=
  if showControls = false then ui else { ui with isSeeking := true }

/-! ## Helper notions and lemmas -/

/-- Predicate: `pat` occurs as a contiguous substring of `u`. -/
def occursIn (pat u : String) : Prop :=
  ∃ s t, u = s ++ (pat ++ t)

theorem append_ne_empty_left (s t : String) (h : s ≠ "") : s ++ t ≠ "" := by
  intro hc
  apply h
  have hd : (s ++ t).data = [] := by rw [hc]
  rw [String.data_append] at hd
  exact String.ext (List.append_eq_nil.mp hd).1

theorem append_ne_empty_right (s t : String) (h : t ≠ "") : s ++ t ≠ "" := by
  intro hc
  apply h
  have hd : (s ++ t).data = [] := by rw [hc]
  rw [String.data_append] at hd
  exact String.ext (List.append_eq_nil.mp hd).2

theorem videoStreamUrl_ne_empty (basePath itemId playSessionId msId : String)
    (si : Option Int) (ai : Int) (deviceId accessToken : String) :
    videoStreamUrl basePath itemId playSessionId msId si ai deviceId accessToken ≠ "" := by
  unfold videoStreamUrl
  apply append_ne_empty_left
  apply append_ne_empty_right
  intro hc
  exact absurd (congrArg String.data hc) (by decide)

theorem audioUniversalUrl_ne_empty (basePath itemId userId deviceId accessToken psid : String) :
    audioUniversalUrl basePath itemId userId deviceId accessToken psid ≠ "" := by
  unfold audioUniversalUrl
  apply append_ne_empty_left
  apply append_ne_empty_right
  intro hc
  exact absurd (congrArg String.data hc) (by decide)

/-- The function `buildUrl` never produces the empty string: each of its three branches
appends a non-empty literal (or the non-empty `TranscodingUrl`). -/
theorem buildUrl_ne_empty (api : Api) (item : BaseItemDto) (itemId userId : String)
    (si : Option Int) (ai : Int) (f : Bool) (psid : String) (ms : MediaSourceInfo)
    (u : String) (h : buildUrl api item itemId userId si ai f psid ms = some u) :
    u ≠ "" := by
  unfold buildUrl at h
  split at h
  · split at h
    · injection h with h
      subst h
      exact videoStreamUrl_ne_empty _ _ _ _ _ _ _ _
    · split at h
      · injection h with h
        subst h
        exact audioUniversalUrl_ne_empty _ _ _ _ _ _
      · exact absurd h (by simp)
  · split at h
    · split at h
      · injection h with h
        subst h
        exact append_ne_empty_right _ _ (by assumption)
      · exact absurd h (by simp)
    · exact absurd h (by simp)

/-- Reduction of `getStreamUrl` when `api`, `userId`, `item.Id` and
`mediaSourceId` are all present and non-empty: the request is issued and
the result follows the source/session/url checks in order. -/
theorem getStreamUrl_reduce (a : GetStreamArgs) (resp : PlaybackInfoData)
    (api : Api) (item : BaseItemDto) (itemId userId msId : String)
    (hapi : a.api = some api) (hitem : a.item = some item) (hid : item.Id = some itemId)
    (hid2 : itemId ≠ "") (huser : a.userId = some userId) (huser2 : userId ≠ "")
    (hms : a.mediaSourceId = some msId) (hms2 : msId ≠ "") :
    getStreamUrl a resp = (true,
      match findMediaSource resp.MediaSources msId with
      | none => .err .noMediaSource
      | some mediaSource =>
        match a.sessionData.PlaySessionId with
        | none => .err .noSession
        | some psid =>
          if psid = "" then .err .noSession
          else
            match buildUrl api item itemId userId a.subtitleStreamIndex a.audioStreamIndex
                a.forceDirectPlay psid mediaSource with
            | none => .err .noUrl
            | some u => if u = "" then .err .noUrl else .url u) := by
  unfold getStreamUrl
  rw [hapi, hitem, huser, hms]
  simp only [Option.some_bind, hid, jsStr, Option.isSome_some, hid2, huser2, hms2, ne_eq,
    not_false_eq_true, decide_True, and_self, not_true_eq_false, if_false, ite_false]
  cases hfind : findMediaSource resp.MediaSources msId with
  | none => simp
  | some mediaSource =>
    simp only []
    cases hsess : a.sessionData.PlaySessionId with
    | none => simp [jsStr]
    | some psid =>
      by_cases hpsid : psid = ""
      · simp [jsStr, hsess, hpsid]
      · simp only [jsStr, hsess, hpsid, ne_eq, not_false_eq_true, decide_True, not_true_eq_false,
          if_false, ite_false, if_neg]
        cases hb : buildUrl api item itemId userId a.subtitleStreamIndex a.audioStreamIndex
            a.forceDirectPlay psid mediaSource with
        | none => simp
        | some u => by_cases hu : u = "" <;> simp [hu]

/-- The static-stream template contains the endpoint path and every
query parameter. -/
theorem videoStreamUrl_occurs (b i p m : String) (si : Option Int) (ai : Int) (d k : String) :
    occursIn ("/Videos/" ++ i ++ "/stream.mp4?") (videoStreamUrl b i p m si ai d k) ∧
    occursIn "static=true" (videoStreamUrl b i p m si ai d k) ∧
    occursIn ("playSessionId=" ++ p) (videoStreamUrl b i p m si ai d k) ∧
    occursIn ("mediaSourceId=" ++ m) (videoStreamUrl b i p m si ai d k) ∧
    occursIn ("subtitleStreamIndex=" ++ jsInterpOptInt si) (videoStreamUrl b i p m si ai d k) ∧
    occursIn ("audioStreamIndex=" ++ toString ai) (videoStreamUrl b i p m si ai d k) ∧
    occursIn ("deviceId=" ++ d) (videoStreamUrl b i p m si ai d k) ∧
    occursIn ("api_key=" ++ k) (videoStreamUrl b i p m si ai d k) := by
  refine ⟨⟨b, "playSessionId=" ++ p ++ "&" ++ "mediaSourceId=" ++ m ++ "&" ++ "static=true" ++
      "&" ++ "subtitleStreamIndex=" ++ jsInterpOptInt si ++ "&" ++ "audioStreamIndex=" ++
      toString ai ++ "&" ++ "deviceId=" ++ d ++ "&" ++ "api_key=" ++ k, ?_⟩,
    ⟨b ++ "/Videos/" ++ i ++ "/stream.mp4?" ++ "playSessionId=" ++ p ++ "&" ++
      "mediaSourceId=" ++ m ++ "&", "&" ++ "subtitleStreamIndex=" ++ jsInterpOptInt si ++ "&" ++
      "audioStreamIndex=" ++ toString ai ++ "&" ++ "deviceId=" ++ d ++ "&" ++ "api_key=" ++ k, ?_⟩,
    ⟨b ++ "/Videos/" ++ i ++ "/stream.mp4?",
      "&" ++ "mediaSourceId=" ++ m ++ "&" ++ "static=true" ++ "&" ++ "subtitleStreamIndex=" ++
      jsInterpOptInt si ++ "&" ++ "audioStreamIndex=" ++ toString ai ++ "&" ++ "deviceId=" ++
      d ++ "&" ++ "api_key=" ++ k, ?_⟩,
    ⟨b ++ "/Videos/" ++ i ++ "/stream.mp4?" ++ "playSessionId=" ++ p ++ "&",
      "&" ++ "static=true" ++ "&" ++ "subtitleStreamIndex=" ++ jsInterpOptInt si ++ "&" ++
      "audioStreamIndex=" ++ toString ai ++ "&" ++ "deviceId=" ++ d ++ "&" ++ "api_key=" ++ k, ?_⟩,
    ⟨b ++ "/Videos/" ++ i ++ "/stream.mp4?" ++ "playSessionId=" ++ p ++ "&" ++
      "mediaSourceId=" ++ m ++ "&" ++ "static=true" ++ "&",
      "&" ++ "audioStreamIndex=" ++ toString ai ++ "&" ++ "deviceId=" ++ d ++ "&" ++
      "api_key=" ++ k, ?_⟩,
    ⟨b ++ "/Videos/" ++ i ++ "/stream.mp4?" ++ "playSessionId=" ++ p ++ "&" ++
      "mediaSourceId=" ++ m ++ "&" ++ "static=true" ++ "&" ++ "subtitleStreamIndex=" ++
      jsInterpOptInt si ++ "&", "&" ++ "deviceId=" ++ d ++ "&" ++ "api_key=" ++ k, ?_⟩,
    ⟨b ++ "/Videos/" ++ i ++ "/stream.mp4?" ++ "playSessionId=" ++ p ++ "&" ++
      "mediaSourceId=" ++ m ++ "&" ++ "static=true" ++ "&" ++ "subtitleStreamIndex=" ++
      jsInterpOptInt si ++ "&" ++ "audioStreamIndex=" ++ toString ai ++ "&",
      "&" ++ "api_key=" ++ k, ?_⟩,
    ⟨b ++ "/Videos/" ++ i ++ "/stream.mp4?" ++ "playSessionId=" ++ p ++ "&" ++
      "mediaSourceId=" ++ m ++ "&" ++ "static=true" ++ "&" ++ "subtitleStreamIndex=" ++
      jsInterpOptInt si ++ "&" ++ "audioStreamIndex=" ++ toString ai ++ "&" ++ "deviceId=" ++
      d ++ "&", "", ?_⟩⟩ <;>
  · apply String.ext
    simp [videoStreamUrl, String.data_append, List.append_assoc, String.append_empty]

/-! ## Concrete fixtures for witnesses and counterexamples -/

def fixApi : Api := ⟨"http://srv", "token1", "device1"⟩

def fixVideoItem : BaseItemDto := ⟨some "item1", some "Video"⟩

def fixPhotoItem : BaseItemDto := ⟨some "item1", some "Photo"⟩

def fixSession : PlaybackInfoResponse := ⟨some "sess1"⟩

def fixDirectSource : MediaSourceInfo := ⟨"src1", true, none⟩

def fixTransSource : MediaSourceInfo := ⟨"src1", false, some "/trans.m3u8"⟩

def fixResp : PlaybackInfoData := ⟨[fixDirectSource]⟩

/-! ## Claim theorems -/

/-- C9: for every call to `getStreamUrl` in which `api`, `userId`, `item`
(or `item.Id`), or `mediaSourceId` is null or undefined, the function
returns null without issuing any network request and without throwing. -/
theorem getStreamUrl_null_args (a : GetStreamArgs) (resp : PlaybackInfoData)
    (h : a.api = none ∨ a.userId = none ∨ a.item = none ∨ a.item.bind (·.Id) = none ∨
      a.mediaSourceId = none) :
    getStreamUrl a resp = (false, .nullResult) := by
  unfold getStreamUrl
  rcases h with h | h | h | h | h <;> simp [h, jsStr]

/-- Witness for C9 at a concrete input with `api = null`. -/
theorem getStreamUrl_null_args_witness :
    getStreamUrl
      { api := none, item := some fixVideoItem, userId := some "user1",
        mediaSourceId := some "src1", sessionData := fixSession } fixResp =
      (false, .nullResult) :=
  getStreamUrl_null_args _ _ (Or.inl rfl)

/-- C10: when the matching media source supports direct play (or direct
play is forced) but the item `MediaType` is neither `"Video"` nor
`"Audio"`, `getStreamUrl` throws the `"No url"` error even if the media
source supplies a `TranscodingUrl`. -/
theorem getStreamUrl_direct_branch_ignores_transcode
    (a : GetStreamArgs) (resp : PlaybackInfoData)
    (api : Api) (item : BaseItemDto) (itemId userId msId : String)
    (ms : MediaSourceInfo) (psid : String)
    (hapi : a.api = some api) (hitem : a.item = some item) (hid : item.Id = some itemId)
    (hid2 : itemId ≠ "") (huser : a.userId = some userId) (huser2 : userId ≠ "")
    (hms : a.mediaSourceId = some msId) (hms2 : msId ≠ "")
    (hfind : findMediaSource resp.MediaSources msId = some ms)
    (hdirect : ms.SupportsDirectPlay = true ∨ a.forceDirectPlay = true)
    (hvid : item.MediaType ≠ some "Video") (haud : item.MediaType ≠ some "Audio")
    (hsess : a.sessionData.PlaySessionId = some psid) (hpsid : psid ≠ "") :
    (getStreamUrl a resp).2 = .err .noUrl := by
  have hb : buildUrl api item itemId userId a.subtitleStreamIndex a.audioStreamIndex
      a.forceDirectPlay psid ms = none := by
    unfold buildUrl
    rw [if_pos hdirect, if_neg hvid, if_neg haud]
  rw [getStreamUrl_reduce a resp api item itemId userId msId hapi hitem hid hid2 huser huser2
    hms hms2]
  simp [hfind, hsess, hpsid, hb]

/-- Witness for C10: a photo item with a direct-play source that also has a
transcode URL still fails with `"No url"`. -/
theorem getStreamUrl_direct_branch_ignores_transcode_witness :
    (getStreamUrl
      { api := some fixApi, item := some fixPhotoItem, userId := some "user1",
        mediaSourceId := some "src1", sessionData := fixSession }
      ⟨[⟨"src1", true, some "/trans.m3u8"⟩]⟩).2 = .err .noUrl :=
  getStreamUrl_direct_branch_ignores_transcode _ _ fixApi fixPhotoItem "item1" "user1" "src1"
    ⟨"src1", true, some "/trans.m3u8"⟩ "sess1" rfl rfl rfl (by decide) rfl (by decide) rfl
    (by decide) rfl (Or.inl rfl) (by decide) (by decide) rfl (by decide)

def c1Args : GetStreamArgs :=
  { api := some fixApi, item := some fixVideoItem, userId := some "user1",
    forceDirectPlay := true, mediaSourceId := some "src1", sessionData := fixSession }

def c1Resp : PlaybackInfoData := ⟨[fixTransSource]⟩

/-- C1 counterexample: with `forceDirectPlay = true`, a video source with
`SupportsDirectPlay = false`, a non-empty `TranscodingUrl` and a present
`PlaySessionId` resolves to the direct static-stream template, not to the
transcode URL appended to the base path — refuting the claim as stated
(it omits the `forceDirectPlay` override). -/
theorem getStreamUrl_transcode_claim_counterexample :
    fixTransSource.SupportsDirectPlay = false ∧
    fixTransSource.TranscodingUrl = some "/trans.m3u8" ∧
    fixSession.PlaySessionId = some "sess1" ∧
    (getStreamUrl c1Args c1Resp).2 ≠ .url ("http://srv" ++ "/trans.m3u8") ∧
    (getStreamUrl c1Args c1Resp).2 =
      .url (videoStreamUrl "http://srv" "item1" "sess1" "src1" none 0 "device1" "token1") :=
  ⟨rfl, rfl, rfl, by decide, rfl⟩

/-- C1 (amended): when the media source matching `mediaSourceId` has
`SupportsDirectPlay = false`, a non-empty `TranscodingUrl`, a
`PlaySessionId` is present, **and `forceDirectPlay` is false**, the
returned URL is the server-supplied transcode URL appended to the API
base path (the direct static-stream template is not used). -/
theorem getStreamUrl_transcode_when_not_forced
    (a : GetStreamArgs) (resp : PlaybackInfoData)
    (api : Api) (item : BaseItemDto) (itemId userId msId : String)
    (ms : MediaSourceInfo) (tu psid : String)
    (hapi : a.api = some api) (hitem : a.item = some item) (hid : item.Id = some itemId)
    (hid2 : itemId ≠ "") (huser : a.userId = some userId) (huser2 : userId ≠ "")
    (hms : a.mediaSourceId = some msId) (hms2 : msId ≠ "")
    (hfind : findMediaSource resp.MediaSources msId = some ms)
    (hsdp : ms.SupportsDirectPlay = false) (hforce : a.forceDirectPlay = false)
    (htu : ms.TranscodingUrl = some tu) (htu2 : tu ≠ "")
    (hsess : a.sessionData.PlaySessionId = some psid) (hpsid : psid ≠ "") :
    (getStreamUrl a resp).2 = .url (api.basePath ++ tu) := by
  have hb : buildUrl api item itemId userId a.subtitleStreamIndex a.audioStreamIndex
      a.forceDirectPlay psid ms = some (api.basePath ++ tu) := by
    simp [buildUrl, hsdp, hforce, htu, htu2]
  rw [getStreamUrl_reduce a resp api item itemId userId msId hapi hitem hid hid2 huser huser2
    hms hms2]
  simp [hfind, hsess, hpsid, hb, append_ne_empty_right api.basePath tu htu2]

/-- Witness for the amended C1 at a concrete input. -/
theorem getStreamUrl_transcode_when_not_forced_witness :
    (getStreamUrl { c1Args with forceDirectPlay := false } c1Resp).2 =
      .url ("http://srv" ++ "/trans.m3u8") :=
  getStreamUrl_transcode_when_not_forced _ _ fixApi fixVideoItem "item1" "user1" "src1"
    fixTransSource "/trans.m3u8" "sess1" rfl rfl rfl (by decide) rfl (by decide) rfl
    (by decide) rfl rfl rfl rfl (by decide) rfl (by decide)

/-- C3: a video item whose matching media source has
`SupportsDirectPlay = true` (with a `PlaySessionId` present) resolves to
the static-stream endpoint `/Videos/{itemId}/stream.mp4` with
`static=true`, containing the `playSessionId`, `mediaSourceId`,
`subtitleStreamIndex`, `audioStreamIndex`, `deviceId` and `api_key`
parameters. -/
theorem getStreamUrl_direct_video_static
    (a : GetStreamArgs) (resp : PlaybackInfoData)
    (api : Api) (item : BaseItemDto) (itemId userId msId : String)
    (ms : MediaSourceInfo) (psid : String)
    (hapi : a.api = some api) (hitem : a.item = some item) (hid : item.Id = some itemId)
    (hid2 : itemId ≠ "") (huser : a.userId = some userId) (huser2 : userId ≠ "")
    (hms : a.mediaSourceId = some msId) (hms2 : msId ≠ "")
    (hfind : findMediaSource resp.MediaSources msId = some ms)
    (hsdp : ms.SupportsDirectPlay = true) (hvid : item.MediaType = some "Video")
    (hsess : a.sessionData.PlaySessionId = some psid) (hpsid : psid ≠ "") :
    ∃ u, (getStreamUrl a resp).2 = .url u ∧
      u = videoStreamUrl api.basePath itemId psid ms.Id a.subtitleStreamIndex
        a.audioStreamIndex api.deviceId api.accessToken ∧
      occursIn ("/Videos/" ++ itemId ++ "/stream.mp4?") u ∧
      occursIn "static=true" u ∧
      occursIn ("playSessionId=" ++ psid) u ∧
      occursIn ("mediaSourceId=" ++ ms.Id) u ∧
      occursIn ("subtitleStreamIndex=" ++ jsInterpOptInt a.subtitleStreamIndex) u ∧
      occursIn ("audioStreamIndex=" ++ toString a.audioStreamIndex) u ∧
      occursIn ("deviceId=" ++ api.deviceId) u ∧
      occursIn ("api_key=" ++ api.accessToken) u := by
  have hb : buildUrl api item itemId userId a.subtitleStreamIndex a.audioStreamIndex
      a.forceDirectPlay psid ms =
      some (videoStreamUrl api.basePath itemId psid ms.Id a.subtitleStreamIndex
        a.audioStreamIndex api.deviceId api.accessToken) := by
    simp [buildUrl, hsdp, hvid]
  obtain ⟨o1, o2, o3, o4, o5, o6, o7, o8⟩ := videoStreamUrl_occurs api.basePath itemId psid
    ms.Id a.subtitleStreamIndex a.audioStreamIndex api.deviceId api.accessToken
  refine ⟨_, ?_, rfl, o1, o2, o3, o4, o5, o6, o7, o8⟩
  rw [getStreamUrl_reduce a resp api item itemId userId msId hapi hitem hid hid2 huser huser2
    hms hms2]
  simp [hfind, hsess, hpsid, hb,
    videoStreamUrl_ne_empty api.basePath itemId psid ms.Id a.subtitleStreamIndex
      a.audioStreamIndex api.deviceId api.accessToken]

def c3Args : GetStreamArgs :=
  { api := some fixApi, item := some fixVideoItem, userId := some "user1",
    mediaSourceId := some "src1", sessionData := fixSession }

/-- Witness for C3 at a concrete input. -/
theorem getStreamUrl_direct_video_static_witness :
    ∃ u, (getStreamUrl c3Args fixResp).2 = .url u ∧
      u = videoStreamUrl "http://srv" "item1" "sess1" "src1" none 0 "device1" "token1" ∧
      occursIn ("/Videos/" ++ "item1" ++ "/stream.mp4?") u ∧
      occursIn "static=true" u ∧
      occursIn ("playSessionId=" ++ "sess1") u ∧
      occursIn ("mediaSourceId=" ++ "src1") u ∧
      occursIn ("subtitleStreamIndex=" ++ jsInterpOptInt none) u ∧
      occursIn ("audioStreamIndex=" ++ toString (0 : Int)) u ∧
      occursIn ("deviceId=" ++ "device1") u ∧
      occursIn ("api_key=" ++ "token1") u :=
  getStreamUrl_direct_video_static _ _ fixApi fixVideoItem "item1" "user1" "src1"
    fixDirectSource "sess1" rfl rfl rfl (by decide) rfl (by decide) rfl (by decide) rfl rfl
    rfl rfl (by decide)

/-- C2: with non-null `api`, `userId`, item id and `mediaSourceId`,
`getStreamUrl` fails with the no-media-source error exactly when the
requested source id is absent from the `MediaSources` response; with
the no-session error exactly when a source matches but `sessionData`
carries no (non-empty) `PlaySessionId`; with the no-url error exactly
when source and session are present but no URL is formed; and in every
other case it returns the formed URL. -/
theorem getStreamUrl_error_taxonomy
    (a : GetStreamArgs) (resp : PlaybackInfoData)
    (api : Api) (item : BaseItemDto) (itemId userId msId : String)
    (hapi : a.api = some api) (hitem : a.item = some item) (hid : item.Id = some itemId)
    (hid2 : itemId ≠ "") (huser : a.userId = some userId) (huser2 : userId ≠ "")
    (hms : a.mediaSourceId = some msId) (hms2 : msId ≠ "") :
    ((getStreamUrl a resp).2 = .err .noMediaSource ↔ ∀ ms ∈ resp.MediaSources, ms.Id ≠ msId) ∧
    ((getStreamUrl a resp).2 = .err .noSession ↔
      (∃ ms ∈ resp.MediaSources, ms.Id = msId) ∧ jsStr a.sessionData.PlaySessionId = false) ∧
    ((getStreamUrl a resp).2 = .err .noUrl ↔
      ∃ ms psid, findMediaSource resp.MediaSources msId = some ms ∧
        a.sessionData.PlaySessionId = some psid ∧ psid ≠ "" ∧
        buildUrl api item itemId userId a.subtitleStreamIndex a.audioStreamIndex
          a.forceDirectPlay psid ms = none) ∧
    (∀ ms psid u, findMediaSource resp.MediaSources msId = some ms →
      a.sessionData.PlaySessionId = some psid → psid ≠ "" →
      buildUrl api item itemId userId a.subtitleStreamIndex a.audioStreamIndex
        a.forceDirectPlay psid ms = some u →
      (getStreamUrl a resp).2 = .url u) := by
  rw [getStreamUrl_reduce a resp api item itemId userId msId hapi hitem hid hid2 huser huser2
    hms hms2]
  cases hfind : findMediaSource resp.MediaSources msId with
  | none =>
    have hforall : ∀ ms ∈ resp.MediaSources, ms.Id ≠ msId := by
      have h2 := List.find?_eq_none.mp hfind
      intro ms hmem
      simpa using h2 ms hmem
    refine ⟨⟨fun _ => hforall, fun _ => rfl⟩, ?_, by simp, ?_⟩
    · constructor
      · intro h
        exact absurd h (by simp)
      · rintro ⟨⟨ms, hmem2, hidq⟩, -⟩
        exact absurd hidq (hforall ms hmem2)
    · intro ms psid u hf
      exact absurd hf (by simp)
  | some ms0 =>
    have hmem : ms0 ∈ resp.MediaSources := List.mem_of_find?_eq_some hfind
    have hid0 : ms0.Id = msId := by simpa using List.find?_some hfind
    have hex : ∃ ms ∈ resp.MediaSources, ms.Id = msId := ⟨ms0, hmem, hid0⟩
    cases hsess : a.sessionData.PlaySessionId with
    | none =>
      refine ⟨?_, ⟨fun _ => ⟨hex, rfl⟩, fun _ => rfl⟩, by simp, ?_⟩
      · constructor
        · intro h
          exact absurd h (by simp)
        · intro hall
          exact absurd hid0 (hall ms0 hmem)
      · intro ms psid u hf hs
        exact absurd hs (by simp)
    | some psid =>
      by_cases hpsid : psid = ""
      · subst hpsid
        refine ⟨?_, ⟨fun _ => ⟨hex, rfl⟩, fun _ => by simp⟩, by simp, ?_⟩
        · constructor
          · intro h
            exact absurd h (by simp)
          · intro hall
            exact absurd hid0 (hall ms0 hmem)
        · intro ms psid2 u hf hs hp hbu
          injection hs with hs
          exact absurd hs.symm hp
      · simp only [if_neg hpsid]
        cases hb : buildUrl api item itemId userId a.subtitleStreamIndex a.audioStreamIndex
            a.forceDirectPlay psid ms0 with
        | none =>
          refine ⟨?_, ?_, ⟨fun _ => ⟨ms0, psid, rfl, rfl, hpsid, hb⟩, fun _ => rfl⟩, ?_⟩
          · constructor
            · intro h
              exact absurd h (by simp)
            · intro hall
              exact absurd hid0 (hall ms0 hmem)
          · constructor
            · intro h
              exact absurd h (by simp)
            · rintro ⟨-, hfalse⟩
              simp [jsStr, hpsid] at hfalse
          · intro ms psid2 u hf hs hp hbu
            injection hf with hf
            injection hs with hs
            subst hf
            subst hs
            rw [hb] at hbu
            exact absurd hbu (by simp)
        | some u =>
          have hu : u ≠ "" := buildUrl_ne_empty _ _ _ _ _ _ _ _ _ _ hb
          simp only [if_neg hu]
          refine ⟨?_, ?_, ?_, ?_⟩
          · constructor
            · intro h
              exact absurd h (by simp)
            · intro hall
              exact absurd hid0 (hall ms0 hmem)
          · constructor
            · intro h
              exact absurd h (by simp)
            · rintro ⟨-, hfalse⟩
              simp [jsStr, hpsid] at hfalse
          · constructor
            · intro h
              exact absurd h (by simp)
            · rintro ⟨ms, psid2, hf, hs, hp, hbu⟩
              injection hf with hf
              injection hs with hs
              subst hf
              subst hs
              rw [hb] at hbu
              exact absurd hbu (by simp)
          · intro ms psid2 u2 hf hs hp hbu
            injection hf with hf
            injection hs with hs
            subst hf
            subst hs
            rw [hb] at hbu
            injection hbu with hbu
            rw [hbu]


/-- Witness for C2: each error arm and the success arm at concrete inputs. -/
theorem getStreamUrl_error_taxonomy_witness :
    (getStreamUrl c3Args ⟨[]⟩).2 = .err .noMediaSource ∧
    (getStreamUrl c3Args ⟨[⟨"src1", false, none⟩]⟩).2 = .err .noUrl ∧
    (getStreamUrl { c3Args with sessionData := ⟨none⟩ } fixResp).2 = .err .noSession ∧
    (getStreamUrl c3Args fixResp).2 =
      .url (videoStreamUrl "http://srv" "item1" "sess1" "src1" none 0 "device1" "token1") := by
  have h1 := getStreamUrl_error_taxonomy c3Args ⟨[]⟩ fixApi fixVideoItem "item1" "user1"
    "src1" rfl rfl rfl (by decide) rfl (by decide) rfl (by decide)
  have h2 := getStreamUrl_error_taxonomy c3Args ⟨[⟨"src1", false, none⟩]⟩ fixApi fixVideoItem
    "item1" "user1" "src1" rfl rfl rfl (by decide) rfl (by decide) rfl (by decide)
  have h3 := getStreamUrl_error_taxonomy { c3Args with sessionData := ⟨none⟩ } fixResp fixApi
    fixVideoItem "item1" "user1" "src1" rfl rfl rfl (by decide) rfl (by decide) rfl (by decide)
  have h4 := getStreamUrl_error_taxonomy c3Args fixResp fixApi fixVideoItem "item1" "user1"
    "src1" rfl rfl rfl (by decide) rfl (by decide) rfl (by decide)
  refine ⟨h1.1.mpr (by simp), ?_, ?_, ?_⟩
  · exact h2.2.2.1.mpr ⟨⟨"src1", false, none⟩, "sess1", rfl, rfl, by decide, rfl⟩
  · exact h3.2.1.mpr ⟨⟨fixDirectSource, by simp [fixResp], rfl⟩, rfl⟩
  · exact h4.2.2.2 fixDirectSource "sess1"
      (videoStreamUrl "http://srv" "item1" "sess1" "src1" none 0 "device1" "token1")
      rfl rfl (by decide) rfl

def fixPlaying : ProviderState :=
  { isPlaying := true, isBuffering := false, isFullscreen := true,
    progressTicks := some 5000000, volume := some 5, previousVolume := some 3,
    session := some fixSession, currentlyPlaying := some ⟨"http://srv/x", fixVideoItem⟩ }

def fixIdle : ProviderState :=
  { isPlaying := false, isBuffering := false, isFullscreen := false,
    progressTicks := some 0, volume := none, previousVolume := none,
    session := none, currentlyPlaying := none }

/-- C4: `stopPlayback` is idempotent — with no active session (the cleared
state `currentlyPlaying = null`, not playing, not fullscreen) it changes
nothing and sends no stop report, and two successive stops from an active
session produce exactly one outbound stop report. -/
theorem stopPlayback_idempotent :
    (∀ s : ProviderState, s.currentlyPlaying = none → s.isPlaying = false →
      s.isFullscreen = false → stopPlayback s = (s, [])) ∧
    (∀ (s : ProviderState) (cp : CurrentlyPlayingState) (id psid : String),
      s.currentlyPlaying = some cp → cp.item.Id = some id → id ≠ "" →
      sessionPlayId s = some psid → psid ≠ "" →
      countStopReports ((stopPlayback s).2 ++ (stopPlayback (stopPlayback s).1).2) = 1) := by
  constructor
  · intro s h1 h2 h3
    unfold stopPlayback reportPlaybackStopped
    simp only [currentItemId, h1, Option.none_bind, jsStr]
    simp only [Bool.false_eq_true, false_and, if_false, ite_false]
    unfold setCurrentlyPlayingStateNull
    cases s
    simp_all
  · intro s cp id psid h1 h2 h3 h4 h5
    have hcur : currentItemId s = some id := by
      simp [currentItemId, h1, h2]
    have hcur2 : currentItemId (stopPlayback s).1 = none := by
      simp [stopPlayback, setCurrentlyPlayingStateNull, currentItemId]
    unfold stopPlayback reportPlaybackStopped
    simp only [currentItemId, setCurrentlyPlayingStateNull, Option.none_bind] at hcur hcur2 ⊢
    rw [hcur]
    simp only [stopPlayback, setCurrentlyPlayingStateNull, sessionPlayId] at h4 ⊢
    rw [h4]
    simp [jsStr, h3, h5, countStopReports]

/-- Witness for C4: a stop on the idle state is a no-op, and two stops from
a playing state report exactly once. -/
theorem stopPlayback_idempotent_witness :
    stopPlayback fixIdle = (fixIdle, []) ∧
    countStopReports ((stopPlayback fixPlaying).2 ++
      (stopPlayback (stopPlayback fixPlaying).1).2) = 1 :=
  ⟨stopPlayback_idempotent.1 fixIdle rfl rfl rfl,
   stopPlayback_idempotent.2 fixPlaying ⟨"http://srv/x", fixVideoItem⟩ "item1" "sess1"
     rfl rfl (by decide) rfl (by decide)⟩

/-- C5: `_onProgress` sends no report and leaves `progressTicks` unchanged
when the session has no `PlaySessionId`, there is no current item id, or
the position is exactly zero; otherwise it stores the ticks and sends
exactly one report carrying the position and the pause state. -/
theorem onProgress_report_conditions (s : ProviderState) (t : ℚ) :
    ((jsStr (sessionPlayId s) = false ∨ jsStr (currentItemId s) = false ∨ t = 0) →
      _onProgress s t = (s, [])) ∧
    (∀ psid id, sessionPlayId s = some psid → psid ≠ "" → currentItemId s = some id →
      id ≠ "" → t ≠ 0 →
      _onProgress s t =
        ({ s with progressTicks := some (t * 10000000) },
         [.progressReport ⟨some id, t * 10000000, some psid, !s.isPlaying⟩])) := by
  constructor
  · intro h
    unfold _onProgress
    rcases h with h | h | h <;> simp [h]
  · intro psid id h1 h2 h3 h4 h5
    unfold _onProgress reportPlaybackProgress
    rw [h1, h3]
    simp [jsStr, h2, h4, h5]

/-- Witness for C5: no report at position zero, one report otherwise. -/
theorem onProgress_report_conditions_witness :
    _onProgress fixPlaying 0 = (fixPlaying, []) ∧
    _onProgress fixPlaying 3 =
      ({ fixPlaying with progressTicks := some 30000000 },
       [.progressReport ⟨some "item1", 30000000, some "sess1", false⟩]) := by
  constructor
  · exact (onProgress_report_conditions fixPlaying 0).1 (Or.inr (Or.inr rfl))
  · have h := (onProgress_report_conditions fixPlaying 3).2 "sess1" "item1" rfl (by decide)
      rfl (by decide) (by norm_num)
    rw [h]
    norm_num [fixPlaying]

def c6State : ProviderState :=
  { isPlaying := false, isBuffering := false, isFullscreen := false,
    progressTicks := some 0, volume := some 0, previousVolume := some 0,
    session := some fixSession, currentlyPlaying := none }

/-- C6 counterexample: with a last-known volume of 0 saved in
`previousVolume`, an `Unmute` command sets the volume to 20 instead of
restoring the saved value (`previousVolume.current || 20` treats 0 as
absent) — refuting the claim that `Unmute` restores the last-known
volume. -/
theorem onMessage_unmute_counterexample :
    c6State.previousVolume = some 0 ∧
    (onMessage c6State true ⟨some "Unmute", none, none, none⟩).1.volume = some 20 ∧
    (20 : ℚ) ≠ 0 := by
  refine ⟨rfl, by decide, by norm_num⟩

/-- C6 (amended): the remote-command handler dispatches by exact string
match — `PlayPause` toggles the play state to the opposite of its value
at receipt; `Stop` performs `stopPlayback` and navigates back when back
navigation is possible; `Mute` saves the current volume and sets volume 0;
`Unmute` restores the last-known volume when one was saved and is
non-zero, and otherwise sets volume 20; a `DisplayMessage` message (with
no recognized command) raises an alert with the supplied header and text;
every other command leaves the playback state unchanged, with no effect
for unrecognized ones. -/
theorem onMessage_dispatch (s : ProviderState) (cb : Bool) (m : WsMessage) :
    (m.Command = some "PlayPause" → (onMessage s cb m).1.isPlaying = !s.isPlaying) ∧
    (m.Command = some "Stop" →
      onMessage s cb m =
        ((stopPlayback s).1, (stopPlayback s).2 ++ if cb then [.navigateBack] else [])) ∧
    (m.Command = some "Mute" →
      onMessage s cb m =
        ({ s with previousVolume := s.volume, volume := some 0 }, [.setVideoVolume 0])) ∧
    (m.Command = some "Unmute" → ∀ v, s.previousVolume = some v → v ≠ 0 →
      (onMessage s cb m).1.volume = some v) ∧
    (m.Command = some "Unmute" → s.previousVolume = none ∨ s.previousVolume = some 0 →
      (onMessage s cb m).1.volume = some 20) ∧
    (m.Command ≠ some "PlayPause" → m.Command ≠ some "Stop" → m.Command ≠ some "Mute" →
      m.Command ≠ some "Unmute" → m.Command ≠ some "SetVolume" →
      m.Name = some "DisplayMessage" → onMessage s cb m = (s, [.alert m.Header m.Text])) ∧
    (m.Command ≠ some "PlayPause" → m.Command ≠ some "Stop" → m.Command ≠ some "Mute" →
      m.Command ≠ some "Unmute" → (onMessage s cb m).1 = s) ∧
    (m.Command ≠ some "PlayPause" → m.Command ≠ some "Stop" → m.Command ≠ some "Mute" →
      m.Command ≠ some "Unmute" → m.Command ≠ some "SetVolume" →
      m.Name ≠ some "DisplayMessage" → onMessage s cb m = (s, [])) := by
  refine ⟨?_, ?_, ?_, ?_, ?_, ?_, ?_, ?_⟩
  · intro h
    unfold onMessage
    rw [if_pos h]
    cases hp : s.isPlaying <;> simp [playVideo, pauseVideo, hp]
  · intro h
    simp [onMessage, h]
  · intro h
    simp [onMessage, h, setVolume]
  · intro h v hv hv0
    simp [onMessage, h, setVolume, unmuteVolume, hv, hv0]
  · intro h hv
    rcases hv with hv | hv <;> simp [onMessage, h, setVolume, unmuteVolume, hv]
  · intro h1 h2 h3 h4 h5 h6
    unfold onMessage
    rw [if_neg h1, if_neg h2, if_neg h3, if_neg h4, if_neg h5, if_pos h6]
  · intro h1 h2 h3 h4
    unfold onMessage
    rw [if_neg h1, if_neg h2, if_neg h3, if_neg h4]
    by_cases h5 : m.Command = some "SetVolume"
    · rw [if_pos h5]
    · rw [if_neg h5]
      by_cases h6 : m.Name = some "DisplayMessage"
      · rw [if_pos h6]
      · rw [if_neg h6]
  · intro h1 h2 h3 h4 h5 h6
    unfold onMessage
    rw [if_neg h1, if_neg h2, if_neg h3, if_neg h4, if_neg h5, if_neg h6]

/-- Witness for the amended C6: each dispatch arm at a concrete state. -/
theorem onMessage_dispatch_witness :
    (onMessage fixPlaying true ⟨some "PlayPause", none, none, none⟩).1.isPlaying = false ∧
    onMessage fixPlaying true ⟨some "Stop", none, none, none⟩ =
      ((stopPlayback fixPlaying).1, (stopPlayback fixPlaying).2 ++ [.navigateBack]) ∧
    onMessage fixPlaying true ⟨some "Mute", none, none, none⟩ =
      ({ fixPlaying with previousVolume := some 5, volume := some 0 }, [.setVideoVolume 0]) ∧
    (onMessage fixPlaying true ⟨some "Unmute", none, none, none⟩).1.volume = some 3 ∧
    (onMessage c6State true ⟨some "Unmute", none, none, none⟩).1.volume = some 20 ∧
    onMessage fixPlaying true ⟨some "Ignored", some "DisplayMessage", some "hd", some "tx"⟩ =
      (fixPlaying, [.alert (some "hd") (some "tx")]) ∧
    onMessage fixPlaying true ⟨some "Ignored", none, none, none⟩ = (fixPlaying, []) := by
  have h1 := onMessage_dispatch fixPlaying true ⟨some "PlayPause", none, none, none⟩
  have h2 := onMessage_dispatch fixPlaying true ⟨some "Stop", none, none, none⟩
  have h3 := onMessage_dispatch fixPlaying true ⟨some "Mute", none, none, none⟩
  have h4 := onMessage_dispatch fixPlaying true ⟨some "Unmute", none, none, none⟩
  have h5 := onMessage_dispatch c6State true ⟨some "Unmute", none, none, none⟩
  have h6 := onMessage_dispatch fixPlaying true
    ⟨some "Ignored", some "DisplayMessage", some "hd", some "tx"⟩
  have h7 := onMessage_dispatch fixPlaying true ⟨some "Ignored", none, none, none⟩
  refine ⟨?_, h2.2.1 rfl, ?_, ?_, ?_, ?_, ?_⟩
  · rw [h1.1 rfl]
    rfl
  · rw [h3.2.2.1 rfl]
    rfl
  · exact h4.2.2.2.1 rfl 3 rfl (by norm_num)
  · exact h5.2.2.2.2.1 rfl (Or.inr rfl)
  · exact h6.2.2.2.2.2.1 (by decide) (by decide) (by decide) (by decide) (by decide) rfl
  · exact h7.2.2.2.2.2.2.2 (by decide) (by decide) (by decide) (by decide) (by decide)
      (by decide)

/-- C7: time-unit conversion is exact at 10,000,000 ticks per second — a
progress event at `t` seconds reports `t * 10000000` ticks, completing a
scrub at slider value `v` (ticks) seeks the video to `v / 10000000`
seconds, and the two conversions are mutually inverse over the rationals. -/
theorem ticks_conversion_exact (s : ProviderState) (t : ℚ) (psid id : String)
    (ui : PlayerUIState) (v : ℚ)
    (h1 : sessionPlayId s = some psid) (h2 : psid ≠ "") (h3 : currentItemId s = some id)
    (h4 : id ≠ "") (h5 : t ≠ 0) :
    (_onProgress s t).2 =
      [.progressReport ⟨some id, t * 10000000, some psid, !s.isPlaying⟩] ∧
    handleSliderComplete ui v =
      ({ ui with progress := v, isSeeking := false }, [.seek (v / 10000000)]) ∧
    (t * 10000000) / 10000000 = t ∧
    (v / 10000000) * 10000000 = v := by
  refine ⟨?_, rfl, by field_simp, by field_simp⟩
  unfold _onProgress reportPlaybackProgress
  rw [h1, h3]
  simp [jsStr, h2, h4, h5]

def fixUI : PlayerUIState :=
  { isSeeking := true, progress := 1, cacheProgress := 2,
    isBufferingLocal := false, isBufferingCtx := false }

/-- Witness for C7 at concrete values. -/
theorem ticks_conversion_exact_witness :
    (_onProgress fixPlaying 3).2 =
      [.progressReport ⟨some "item1", 3 * 10000000, some "sess1", !fixPlaying.isPlaying⟩] ∧
    handleSliderComplete fixUI 50000000 =
      ({ fixUI with progress := 50000000, isSeeking := false }, [.seek (50000000 / 10000000)]) ∧
    ((3 : ℚ) * 10000000) / 10000000 = 3 ∧
    ((50000000 : ℚ) / 10000000) * 10000000 = 50000000 :=
  ticks_conversion_exact fixPlaying 3 "sess1" "item1" fixUI 50000000 rfl (by decide) rfl
    (by decide) (by norm_num)

/-- C8: while seeking mode is active, an incoming video progress event
leaves the slider progress, cache progress, buffering flags and provider
state unchanged and issues no report; completing the drag issues exactly
one seek to the player and leaves seeking mode. -/
theorem seeking_suspends_progress (ui : PlayerUIState) (ps : ProviderState)
    (d : OnProgressData) (v : ℚ) (h : ui.isSeeking = true) :
    handleVideoProgress ui ps d = (ui, ps, []) ∧
    (handleSliderComplete ui v).2 = [.seek (v / 10000000)] ∧
    countSeeks (handleSliderComplete ui v).2 = 1 ∧
    (handleSliderComplete ui v).1.isSeeking = false := by
  refine ⟨?_, rfl, rfl, rfl⟩
  unfold handleVideoProgress
  rw [if_pos h]

/-- Witness for C8 at concrete values. -/
theorem seeking_suspends_progress_witness :
    handleVideoProgress fixUI fixPlaying ⟨3, 4⟩ = (fixUI, fixPlaying, []) ∧
    (handleSliderComplete fixUI 7).2 = [.seek (7 / 10000000)] ∧
    countSeeks (handleSliderComplete fixUI 7).2 = 1 ∧
    (handleSliderComplete fixUI 7).1.isSeeking = false :=
  seeking_suspends_progress fixUI fixPlaying ⟨3, 4⟩ 7 rfl

end Streamyfin
